import Mathlib

/-!
# SecureVault: verification of the expiry-tracking and reminder pipeline

A shallow embedding of the server-side core of the SecureVault document
manager: the category classifier and expiry-reminder scheduler
(`server/routes.ts`), the document scanner and scan-eligibility policy
(`server/document-scanner.ts`), the in-memory storage (`server/storage.ts`,
class `MemStorage`), and the SQL-backed storage (class `PostgresStorage`).

Modelling conventions:
* JavaScript timestamps (`Date` values holding a definite instant) are `Int`
  milliseconds since the epoch; adding `d` calendar days via `setDate` is
  modelled as adding `d * 86400000` ms.
* A JavaScript `Date` object that may be invalid (`new Date(s)` on an
  unparseable string) is `JsDate`: either `valid ms` or `invalid` (NaN time).
* `randomUUID()` is modelled as a fresh-identifier counter (`nextId`) carried
  by the in-memory store; the source's `Map` keyed by the generated id is
  modelled as the list of its values, since a freshly generated key makes
  `Map.set` an append and every reachable state keys each record by its own
  `id` field.
* JavaScript numbers used as confidence scores are `Rat`.
* The external vision service is an explicit parameter (`ServiceOutcome`):
  either a failure (network error, timeout, non-JSON or null content — all of
  which throw and land in the `catch`) or a parsed JSON object whose fields
  may each be absent.
-/

/-! ## Strings: lowercase substring containment (JS `String.includes`) -/

/-- Is `pat` a prefix of `s` (on character lists)? -/
def isPrefixCh : List Char → List Char → Bool
  | [], _ => true
  | _ :: _, [] => false
  | a :: as, b :: bs => a == b && isPrefixCh as bs

/-- Does `s` contain `pat` as a contiguous substring (on character lists)?
JS `s.includes(pat)`; the empty pattern is contained in every string. -/
def containsCh (pat : List Char) : List Char → Bool
  | [] => isPrefixCh pat []
  | s@(_ :: rest) => isPrefixCh pat s || containsCh pat rest

/-- JS `s.includes(pat)` on Lean strings. -/
def strContains (s pat : String) : Bool :=
  containsCh pat.toList s.toList

/-- JS `s.toLowerCase()` (ASCII, which covers every keyword compared against). -/
def strLower (s : String) : String :=
  String.mk (s.toList.map Char.toLower)

/-! ## Calendar dates -/

/-- A proleptic Gregorian calendar date. -/
structure CalDate where
  year : Nat
  month : Nat
  day : Nat
deriving Repr, DecidableEq

def isLeapYear (y : Nat) : Bool :=
  (y % 4 == 0 && y % 100 != 0) || y % 400 == 0

def daysInMonth (y m : Nat) : Nat :=
  if m == 2 then (if isLeapYear y then 29 else 28)
  else if m == 4 || m == 6 || m == 9 || m == 11 then 30
  else 31

/-- The date denotes a real calendar day. -/
def calDateValid (d : CalDate) : Bool :=
  1 ≤ d.month && d.month ≤ 12 && 1 ≤ d.day && d.day ≤ daysInMonth d.year d.month

/-- Numeric value of a decimal digit character (junk for non-digits). -/
def digitVal (c : Char) : Nat := c.toNat - 48

/-- The fragment of the JS `Date` string parser used by the scanner: strict
ISO `YYYY-MM-DD` input (`Date.parse` validates the field ranges and yields an
invalid date otherwise). -/
def parseIsoDate (s : String) : Option CalDate :=
  match s.toList with
  | [y1, y2, y3, y4, h1, m1, m2, h2, d1, d2] =>
    if h1 == '-' && h2 == '-' && [y1, y2, y3, y4, m1, m2, d1, d2].all Char.isDigit then
      let y := digitVal y1 * 1000 + digitVal y2 * 100 + digitVal y3 * 10 + digitVal y4
      let mo := digitVal m1 * 10 + digitVal m2
      let dy := digitVal d1 * 10 + digitVal d2
      if calDateValid ⟨y, mo, dy⟩ then some ⟨y, mo, dy⟩ else none
    else none
  | _ => none

/-- Left-pad a decimal string with zeros to width `w`. -/
def zeroPad (w : Nat) (s : String) : String :=
  String.mk (List.replicate (w - s.length) '0') ++ s

/-- `date.toISOString().split('T')[0]`: canonical `YYYY-MM-DD` form. -/
def serializeCalDate (d : CalDate) : String :=
  zeroPad 4 (toString d.year) ++ "-" ++ zeroPad 2 (toString d.month) ++ "-" ++
    zeroPad 2 (toString d.day)

/-- One civil day in milliseconds. -/
def dayMs : Int := 86400000

/-- Days since 1970-01-01 of a civil date (Hinnant's algorithm). -/
def daysFromCivil (y m d : Int) : Int :=
  let y' := if m ≤ 2 then y - 1 else y
  let era := (if 0 ≤ y' then y' else y' - 399) / 400
  let yoe := y' - era * 400
  let mp := (m + 9) % 12
  let doy := (153 * mp + 2) / 5 + d - 1
  let doe := yoe * 365 + yoe / 4 - yoe / 100 + doy
  era * 146097 + doe - 719468

/-- Epoch milliseconds of a calendar date at UTC midnight. -/
def epochMs (d : CalDate) : Int :=
  daysFromCivil d.year d.month d.day * dayMs

/-- A JS `Date` object: a definite instant, or the invalid date (NaN time). -/
inductive JsDate where
  | valid (ms : Int)
  | invalid
deriving Repr, DecidableEq

/-- `new Date(s)` for a date string, in the ISO fragment modelled here. -/
def jsNewDate (s : String) : JsDate :=
  match parseIsoDate s with
  | some d => .valid (epochMs d)
  | none => .invalid

/-! ## Data model (`shared/schema.ts`) -/

/-- A row of the `documents` table / a value of `MemStorage.documents`. -/
structure Document where
  id : Nat
  userId : String
  filename : String
  originalName : String
  mimeType : String
  size : Nat
  category : String
  tags : Option (List String)
  metadata : Option String
  expiryDate : Option JsDate
  isEncrypted : Option Bool
  uploadedAt : Int
deriving Repr, DecidableEq

/-- A row of the `reminders` table / a value of `MemStorage.reminders`. -/
structure Reminder where
  id : Nat
  userId : String
  documentId : Nat
  reminderDate : Int
  message : String
  isActive : Option Bool
  createdAt : Int
deriving Repr, DecidableEq

/-- The `InsertReminder` payload (id and createdAt are store-assigned). -/
structure InsertReminder where
  userId : String
  documentId : Nat
  reminderDate : Int
  message : String
  isActive : Option Bool
deriving Repr, DecidableEq

/-! ## Document scanner (`server/document-scanner.ts`) -/

/-- The transient scan result. -/
structure ScanResult where
  expiryDate : Option String
  documentType : Option String
  confidence : Rat
  documentNumber : Option String
deriving Repr, DecidableEq

/-- `{ expiryDate: null, documentType: null, confidence: 0, documentNumber: null }`. -/
def emptyScanResult : ScanResult :=
  { expiryDate := none, documentType := none, confidence := 0, documentNumber := none }

/-- The JSON object parsed from the vision service's reply; every field may be
absent (`undefined`) or `null`, collapsed to `none`.  The fields are typed as
the `ScanResult` interface declares them, which the source never checks:
`JSON.parse` can equally well produce, say, a string in `confidence` or a
number in `expiryDate`, and such ill-typed replies then flow unvalidated
through the `Math.min`/truthiness coercions (see the scanner-safety bug
below).  This typed structure covers the replies the theorems in this file
evaluate the scanner on. -/
structure RawScanResponse where
  expiryDate : Option String
  documentType : Option String
  confidence : Option Rat
  documentNumber : Option String
deriving Repr, DecidableEq

/-- The external inference call, as observed by the scanner: either some
failure that throws (network fault, timeout, unparseable or null message
content) or a parsed JSON object. -/
inductive ServiceOutcome where
  | failure
  | success (raw : RawScanResponse)
deriving Repr, DecidableEq

/-- `fs.readFileSync`: the bytes, or a thrown I/O error. -/
inductive FileRead where
  | ok (bytes : List Nat)
  | ioError
deriving Repr, DecidableEq

/-- The scanner's observable outcome: its returned `ScanResult` and whether
the external inference service was invoked. -/
structure ScanOutcome where
  result : ScanResult
  calledService : Bool
deriving Repr, DecidableEq

/-- `Math.max(0, Math.min(1, x))`. -/
def clampConf (x : Rat) : Rat := max 0 (min 1 x)

/-- `x || null` on an optional string: the empty string is falsy. -/
def truthyOrNull (x : Option String) : Option String :=
  match x with
  | some s => if s == "" then none else some s
  | none => none

/-- The scanner's expiry-date post-processing block:
`if (result.expiryDate)` — only a truthy (non-null, non-empty) date string is
parsed and re-serialized to `YYYY-MM-DD`; a truthy string that fails to parse
becomes null; a falsy value is left exactly as it was. -/
def postProcessDate (e : Option String) : Option String :=
  match e with
  | some s =>
    if s != "" then
      match parseIsoDate s with
      | some d => some (serializeCalDate d)
      | none => none
    else some s
  | none => none

/-- `scanDocumentForExpiry(filePath, mimeType, enableRemoteScanning)`.

The body is one `try`/`catch`: the privacy gate, the MIME-type gate, the
image branch (read file, call the service, post-process the reply), the PDF
branch, and a fallthrough; every thrown error is caught and converted to the
empty result. `fs.readFileSync` throws before the network call; a service
fault or an unparseable reply throws after it. -/
def scanDocumentForExpiry (file : FileRead) (mimeType : String)
    (enableRemoteScanning : Bool) (service : ServiceOutcome) : ScanOutcome :=
  if !enableRemoteScanning then
    { result := emptyScanResult, calledService := false }
  else if !strContains mimeType "image" && !strContains mimeType "pdf" then
    { result := emptyScanResult, calledService := false }
  else if strContains mimeType "image" then
    match file with
    | .ioError => { result := emptyScanResult, calledService := false }
    | .ok _ =>
      match service with
      | .failure => { result := emptyScanResult, calledService := true }
      | .success raw =>
        { result :=
            { expiryDate := postProcessDate raw.expiryDate,
              documentType := raw.documentType,
              confidence := clampConf (raw.confidence.getD 0),
              documentNumber := truthyOrNull raw.documentNumber },
          calledService := true }
  else if strContains mimeType "pdf" then
    { result := emptyScanResult, calledService := false }
  else
    { result := emptyScanResult, calledService := false }

/-- Keywords marking priority documents for expiry scanning. -/
def priorityKeywords : List String :=
  ["passport", "brp", "biometric", "residence", "permit",
   "license", "licence", "driving", "id", "identity",
   "visa", "work", "student", "tier"]

/-- `shouldScanDocument(filename, category)`. -/
def shouldScanDocument (filename category : String) : Bool :=
  let name := strLower filename
  if category != "Identity Documents" && category != "Legal Documents" then
    false
  else
    let sc := priorityKeywords.any (fun k => strContains name k)
    if category == "Identity Documents" && !sc then true
    else sc

/-! ## Category classifier (`categorizeDocument` in `server/routes.ts`) -/

/-- `categorizeDocument(filename, mimeType)`: ordered keyword groups over the
lowercased filename, defaulting to `"Receipts"`; `mimeType` is unused. -/
def categorizeDocument (filename mimeType : String) : String :=
  let name := strLower filename
  if strContains name "passport" || strContains name "license" ||
      strContains name "id" || strContains name "brp" ||
      strContains name "biometric" || strContains name "residence permit" then
    "Identity Documents"
  else if strContains name "bill" || strContains name "utility" ||
      strContains name "invoice" then
    "Bills & Utilities"
  else if strContains name "medical" || strContains name "health" ||
      strContains name "doctor" then
    "Medical Records"
  else if strContains name "receipt" || strContains name "purchase" then
    "Receipts"
  else if strContains name "ticket" || strContains name "visa" ||
      strContains name "travel" then
    "Travel Documents"
  else if strContains name "insurance" || strContains name "policy" then
    "Insurance"
  else
    "Receipts"

example : categorizeDocument "my_passport.jpg" "image/jpeg" = "Identity Documents" := by
  decide

example : categorizeDocument "licence.pdf" "application/pdf" = "Receipts" := by
  decide

example : shouldScanDocument "holiday.png" "Identity Documents" = true := by decide

example : parseIsoDate "2026-03-01" = some ⟨2026, 3, 1⟩ := by decide

example : serializeCalDate ⟨2026, 3, 1⟩ = "2026-03-01" := by decide

/-! ## In-memory storage (`server/storage.ts`, class `MemStorage`)

The source keeps documents and reminders in `Map`s keyed by the freshly
generated id; since a fresh key makes `Map.set` an append and every reachable
state keys each record by its own `id` field, the maps are modelled as the
lists of their values, in insertion order, together with the fresh-id
counter `nextId` standing for `randomUUID()`. -/

structure MemStorage where
  documents : List Document
  reminders : List Reminder
  nextId : Nat
deriving Repr, DecidableEq

/-- A `Partial<Document>` update object: each field present or absent. -/
structure DocumentUpdate where
  id : Option Nat := none
  userId : Option String := none
  filename : Option String := none
  originalName : Option String := none
  mimeType : Option String := none
  size : Option Nat := none
  category : Option String := none
  tags : Option (Option (List String)) := none
  metadata : Option (Option String) := none
  expiryDate : Option (Option JsDate) := none
  isEncrypted : Option (Option Bool) := none
  uploadedAt : Option Int := none
deriving Repr, DecidableEq

/-- The object spread `{ ...doc, ...updates }`: every field present in
`updates` overrides the document's field. -/
def applyUpdate (d : Document) (u : DocumentUpdate) : Document :=
  { id := u.id.getD d.id
    userId := u.userId.getD d.userId
    filename := u.filename.getD d.filename
    originalName := u.originalName.getD d.originalName
    mimeType := u.mimeType.getD d.mimeType
    size := u.size.getD d.size
    category := u.category.getD d.category
    tags := u.tags.getD d.tags
    metadata := u.metadata.getD d.metadata
    expiryDate := u.expiryDate.getD d.expiryDate
    isEncrypted := u.isEncrypted.getD d.isEncrypted
    uploadedAt := u.uploadedAt.getD d.uploadedAt }

namespace MemStorage

/-- `getDocument(id, userId)`: map lookup, then ownership check. -/
def getDocument (s : MemStorage) (id : Nat) (userId : String) : Option Document :=
  match s.documents.find? (fun d => d.id == id) with
  | some d => if d.userId == userId then some d else none
  | none => none

/-- `updateDocument(id, userId, updates)`: spread the updates over the stored
document and write it back under the same key. -/
def updateDocument (s : MemStorage) (id : Nat) (userId : String)
    (u : DocumentUpdate) : MemStorage × Option Document :=
  match s.documents.find? (fun d => d.id == id) with
  | none => (s, none)
  | some d =>
    if d.userId == userId then
      let d2 := applyUpdate d u
      ({ s with documents := s.documents.map (fun x => if x.id == id then d2 else x) },
       some d2)
    else (s, none)

/-- `deleteDocument(id, userId)`: remove the document and every reminder whose
`documentId` equals `id`; `false` when absent or owned by another user. -/
def deleteDocument (s : MemStorage) (id : Nat) (userId : String) :
    MemStorage × Bool :=
  match s.documents.find? (fun d => d.id == id) with
  | none => (s, false)
  | some d =>
    if d.userId == userId then
      ({ s with documents := s.documents.filter (fun x => x.id != id),
                reminders := s.reminders.filter (fun r => r.documentId != id) },
       true)
    else (s, false)

/-- `createReminder(insertReminder)`: fresh id, `createdAt = new Date()`,
`isActive = insertReminder.isActive ?? true`, inserted into the map. -/
def createReminder (s : MemStorage) (ir : InsertReminder) (now : Int) :
    MemStorage × Reminder :=
  let r : Reminder :=
    { id := s.nextId
      userId := ir.userId
      documentId := ir.documentId
      reminderDate := ir.reminderDate
      message := ir.message
      isActive := some (ir.isActive.getD true)
      createdAt := now }
  ({ s with reminders := s.reminders ++ [r], nextId := s.nextId + 1 }, r)

/-- `getUpcomingReminders(userId, days)`: active reminders of the user whose
date lies between now and now plus `days` days, both bounds inclusive.  A
nullable `isActive` is truthy exactly when it is `true`. -/
def getUpcomingReminders (s : MemStorage) (userId : String) (days : Int)
    (now : Int) : List Reminder :=
  let futureDate := now + days * dayMs
  s.reminders.filter (fun r =>
    r.userId == userId && r.isActive == some true &&
    decide (r.reminderDate ≤ futureDate) && decide (now ≤ r.reminderDate))

end MemStorage

/-! ## SQL-backed storage (class `PostgresStorage`)

Tables are modelled as lists of rows.  The schema in `shared/schema.ts`
declares `reminders.documentId` as a plain `varchar` column with no foreign
key and no `ON DELETE CASCADE`, so deleting a document row leaves reminder
rows untouched.  `orderBy(desc(...))` clauses only reorder rows and are
omitted here, as the properties below are about which rows are returned. -/

structure PgDb where
  documents : List Document
  reminders : List Reminder
deriving Repr, DecidableEq

namespace PgDb

/-- `db.update(documents).set(updates).where(id = id and userId = userId).returning()`. -/
def updateDocument (db : PgDb) (id : Nat) (userId : String)
    (u : DocumentUpdate) : PgDb × Option Document :=
  let hit := fun (d : Document) => d.id == id && d.userId == userId
  ({ db with documents := db.documents.map (fun d => if hit d then applyUpdate d u else d) },
   ((db.documents.filter hit).map (fun d => applyUpdate d u)).head?)

/-- `db.delete(documents).where(id = id and userId = userId).returning(id)`,
then `result.length > 0`.  No cascade: the `reminders` table is untouched. -/
def deleteDocument (db : PgDb) (id : Nat) (userId : String) : PgDb × Bool :=
  let hit := fun (d : Document) => d.id == id && d.userId == userId
  ({ db with documents := db.documents.filter (fun d => !hit d) },
   decide (0 < (db.documents.filter hit).length))

/-- The `select ... where userId = ? and isActive = true and reminderDate
between now and now plus days` query (both bounds inclusive; SQL `eq` on a
null `isActive` matches nothing). -/
def getUpcomingReminders (db : PgDb) (userId : String) (days : Int)
    (now : Int) : List Reminder :=
  let future := now + days * dayMs
  db.reminders.filter (fun r =>
    r.userId == userId && r.isActive == some true &&
    decide (now ≤ r.reminderDate) && decide (r.reminderDate ≤ future))

end PgDb

/-! ## Upload-handler fragments (`registerRoutes` in `server/routes.ts`) -/

/-- The confidence gate of the upload handler (`routes.ts` lines 127-136):
`if (scanResult.expiryDate && scanResult.confidence > 0.7)` update the
document with `new Date(scanResult.expiryDate)`, else leave it unchanged.
The truthiness test passes only a non-null, non-empty date string.  The
store-level `updateDocument` call succeeds on the just-created document and
replaces its `expiryDate`, which is what this document-level step records. -/
def applyScanGate (d : Document) (r : ScanResult) : Document :=
  match r.expiryDate with
  | some s =>
    if s != "" && decide (mkRat 7 10 < r.confidence) then
      { d with expiryDate := some (jsNewDate s) }
    else d
  | none => d

/-- The fixed reminder offsets with their canned messages
(`createExpiryReminders`, `routes.ts` lines 287-291). -/
def reminderOffsets : List (Int × String) :=
  [(90, " expires in 3 months"), (30, " expires in 1 month"), (7, " expires in 1 week")]

/-- The `for` loop of `createExpiryReminders`: for each offset, compute the
trigger date `expiry - days` and persist a reminder when it is strictly in
the future. -/
def reminderLoop (d : Document) (userId : String) (now e : Int) :
    List (Int × String) → MemStorage → MemStorage
  | [], s => s
  | od :: rest, s =>
    let rDate := e - od.1 * dayMs
    if now < rDate then
      reminderLoop d userId now e rest
        (s.createReminder
          { userId := userId
            documentId := d.id
            reminderDate := rDate
            message := d.originalName ++ od.2
            isActive := some true } now).1
    else reminderLoop d userId now e rest s

/-- `createExpiryReminders(document, userId)`.  A document without an
`expiryDate` is skipped.  An invalid stored date (possible only off the
modelled ingestion paths) makes every `reminderDate` NaN, and a NaN never
compares greater than now, so no reminder is created. -/
def createExpiryReminders (d : Document) (userId : String) (now : Int)
    (s : MemStorage) : MemStorage :=
  match d.expiryDate with
  | none => s
  | some .invalid => s
  | some (.valid e) => reminderLoop d userId now e reminderOffsets s

/-! ## Sample records used by concrete counterexamples and witnesses -/

/-- A freshly uploaded identity document without an expiry date. -/
def sampleDoc : Document :=
  { id := 1, userId := "alice", filename := "f1", originalName := "passport_john.jpg",
    mimeType := "image/jpeg", size := 100, category := "Identity Documents",
    tags := some [], metadata := none, expiryDate := none, isEncrypted := some true,
    uploadedAt := 0 }

/-- A reminder referencing `sampleDoc`. -/
def sampleReminder : Reminder :=
  { id := 5, userId := "alice", documentId := 1, reminderDate := 1000,
    message := "passport_john.jpg expires in 1 week", isActive := some true,
    createdAt := 0 }

/-- An in-memory store holding `sampleDoc` and `sampleReminder`. -/
def memWithDocAndReminder : MemStorage :=
  { documents := [sampleDoc], reminders := [sampleReminder], nextId := 10 }

/-- A SQL database holding the same rows. -/
def pgWithDocAndReminder : PgDb :=
  { documents := [sampleDoc], reminders := [sampleReminder] }

/-! ## C5: the privacy gate short-circuits every scan -/

/-- C5: with the scanning-enabled flag false, `scan` returns the empty result
(no date, no type, confidence 0) without calling the external inference
service, so its output is identical across any two runs regardless of file
bytes, MIME type, or service behavior. -/
theorem scanner_privacy_gate :
    ∀ (f₁ f₂ : FileRead) (m₁ m₂ : String) (svc₁ svc₂ : ServiceOutcome),
      scanDocumentForExpiry f₁ m₁ false svc₁ =
        { result := emptyScanResult, calledService := false } ∧
      scanDocumentForExpiry f₁ m₁ false svc₁ = scanDocumentForExpiry f₂ m₂ false svc₂ := by
  intro f₁ f₂ m₁ m₂ svc₁ svc₂
  exact ⟨rfl, rfl⟩

/-! ## C6: scan-eligibility policy -/

/-- C6: `shouldScan(f, c)` is false whenever `c` is outside
{"Identity Documents", "Legal Documents"}; it is true for every filename when
`c = "Identity Documents"`; and for `c = "Legal Documents"` it is true exactly
when the lowercased filename contains one of the keywords passport, brp,
biometric, residence, permit, license, licence, driving, id, identity, visa,
work, student, tier. -/
theorem shouldScan_eligibility :
    ∀ (f c : String),
      (c ≠ "Identity Documents" → c ≠ "Legal Documents" →
        shouldScanDocument f c = false) ∧
      shouldScanDocument f "Identity Documents" = true ∧
      (shouldScanDocument f "Legal Documents" = true ↔
        (["passport", "brp", "biometric", "residence", "permit",
          "license", "licence", "driving", "id", "identity",
          "visa", "work", "student", "tier"].any
            (fun k => strContains (strLower f) k)) = true) := by
  intro f c
  refine ⟨fun h1 h2 => ?_, ?_, ?_⟩
  · simp [shouldScanDocument, bne_iff_ne, h1, h2]
  · cases hsc : priorityKeywords.any (fun k => strContains (strLower f) k) <;>
      simp [shouldScanDocument, hsc]
  · simp [shouldScanDocument, priorityKeywords]

/-- Closed instance of C6, discharging each hypothesis at a concrete input. -/
theorem shouldScan_eligibility_witness :
    shouldScanDocument "notes.txt" "Receipts" = false ∧
    shouldScanDocument "holiday.png" "Identity Documents" = true ∧
    shouldScanDocument "work_visa.pdf" "Legal Documents" = true :=
  ⟨(shouldScan_eligibility "notes.txt" "Receipts").1 (by decide) (by decide),
   (shouldScan_eligibility "holiday.png" "Identity Documents").2.1,
   ((shouldScan_eligibility "work_visa.pdf" "Legal Documents").2.2).mpr (by decide)⟩

/-! ## C7: category classifier -/

/-- First-match category lookup over ordered keyword groups, defaulting to
`"Receipts"`; the shape the spec describes the classifier in. -/
def firstMatchCategory (f : String) : List (String × List String) → String
  | [] => "Receipts"
  | g :: rest =>
    if g.2.any (fun k => strContains (strLower f) k) then g.1
    else firstMatchCategory f rest

/-- Modelled from the claim's words: the claimed ordered keyword groups,
including the `licence` spelling in the Identity Documents group. -/
def claimedClassifierGroups : List (String × List String) :=
  [("Identity Documents",
    ["passport", "license", "licence", "id", "brp", "biometric", "residence permit"]),
   ("Bills & Utilities", ["bill", "utility", "invoice"]),
   ("Medical Records", ["medical", "health", "doctor"]),
   ("Receipts", ["receipt", "purchase"]),
   ("Travel Documents", ["ticket", "visa", "travel"]),
   ("Insurance", ["insurance", "policy"])]

/-- The keyword groups the code actually tests: as claimed, but without the
`licence` spelling. -/
def actualClassifierGroups : List (String × List String) :=
  [("Identity Documents",
    ["passport", "license", "id", "brp", "biometric", "residence permit"]),
   ("Bills & Utilities", ["bill", "utility", "invoice"]),
   ("Medical Records", ["medical", "health", "doctor"]),
   ("Receipts", ["receipt", "purchase"]),
   ("Travel Documents", ["ticket", "visa", "travel"]),
   ("Insurance", ["insurance", "policy"])]

/-- C7 counterexample: the claim's keyword table puts `licence` in the
Identity Documents group, but the code only tests the `license` spelling, so
the filename `"licence"` falls through every group to the default. -/
theorem classifier_licence_counterexample :
    firstMatchCategory "licence" claimedClassifierGroups = "Identity Documents" ∧
    categorizeDocument "licence" "application/pdf" = "Receipts" ∧
    ("Identity Documents" : String) ≠ "Receipts" := by
  decide

/-- C7 amended: `classify` is a total, deterministic function of the filename
alone — first matching group over the ordered keyword table wins, the
`licence` spelling not being an Identity Documents trigger, with default
`"Receipts"` — and the `mimeType` argument never affects the result. -/
theorem classifier_amended :
    ∀ (f m m' : String),
      categorizeDocument f m = firstMatchCategory f actualClassifierGroups ∧
      categorizeDocument f m = categorizeDocument f m' := by
  intro f m m'
  constructor
  · simp only [categorizeDocument, firstMatchCategory, actualClassifierGroups,
      List.any_cons, List.any_nil, Bool.or_false, Bool.or_assoc]
  · rfl

/-! ## C2: the confidence gate -/

/-- C2 counterexample: a scan result whose `expiryDate` is present (the empty
string) with confidence 0.9 > 0.7, yet the gate leaves the document
unchanged, because `if (scanResult.expiryDate && ...)` tests JS truthiness
and the empty string is falsy. -/
theorem confidence_gate_empty_string_counterexample :
    applyScanGate sampleDoc
        { expiryDate := some "", documentType := some "other",
          confidence := mkRat 9 10, documentNumber := none } = sampleDoc ∧
    (some "" : Option String).isSome = true ∧
    mkRat 7 10 < mkRat 9 10 := by
  decide

/-- C2 amended: for a document without a declared expiry date, the confidence
gate sets an expiry date if and only if the scan's `expiryDate` is present as
a non-empty string and its confidence strictly exceeds 0.7; whenever the
confidence is at most 0.7 the document is unchanged, regardless of whether a
date was extracted. -/
theorem confidence_gate_amended (d : Document) (r : ScanResult)
    (h : d.expiryDate = none) :
    ((applyScanGate d r).expiryDate ≠ none ↔
      ∃ s, r.expiryDate = some s ∧ s ≠ "" ∧ mkRat 7 10 < r.confidence) ∧
    (r.confidence ≤ mkRat 7 10 → applyScanGate d r = d) := by
  constructor
  · cases hr : r.expiryDate with
    | none => simp [applyScanGate, hr, h]
    | some s =>
      by_cases hs : s = ""
      · subst hs
        simp [applyScanGate, hr, h]
      · by_cases hc : mkRat 7 10 < r.confidence
        · simp [applyScanGate, hr, hs, hc]
        · simp [applyScanGate, hr, hs, hc, h]
  · intro hle
    cases hr : r.expiryDate with
    | none => simp [applyScanGate, hr]
    | some s =>
      have hc : ¬ mkRat 7 10 < r.confidence := not_lt.mpr hle
      simp [applyScanGate, hr, hc]

/-- Closed instance of C2 (amended), discharging each hypothesis at a
concrete input: a valid high-confidence scan updates the fresh document. -/
theorem confidence_gate_amended_witness :
    ((applyScanGate sampleDoc
        { expiryDate := some "2026-03-01", documentType := some "passport",
          confidence := mkRat 92 100, documentNumber := none }).expiryDate ≠ none) ∧
    (applyScanGate sampleDoc
        { expiryDate := some "2026-03-01", documentType := some "passport",
          confidence := mkRat 3 10, documentNumber := none }) = sampleDoc := by
  constructor
  · exact (confidence_gate_amended sampleDoc
      { expiryDate := some "2026-03-01", documentType := some "passport",
        confidence := mkRat 92 100, documentNumber := none } rfl).1.mpr
      ⟨"2026-03-01", rfl, by decide, by decide⟩
  · exact (confidence_gate_amended sampleDoc
      { expiryDate := some "2026-03-01", documentType := some "passport",
        confidence := mkRat 3 10, documentNumber := none } rfl).2 (by decide)

/-! ## C4: scanner safety -/

/-- The ISO parser only accepts real calendar dates (as `Date.parse` does for
ISO input). -/
lemma parseIsoDate_valid {s : String} {cd : CalDate}
    (h : parseIsoDate s = some cd) : calDateValid cd = true := by
  unfold parseIsoDate at h
  split at h
  · split at h
    · dsimp only at h
      split at h
      · next hv => exact (Option.some.inj h) ▸ hv
      · exact absurd h (by simp)
    · exact absurd h (by simp)
  · exact absurd h (by simp)

/-- A serialized calendar date is never the empty string. -/
lemma serializeCalDate_ne_empty (cd : CalDate) : serializeCalDate cd ≠ "" := by
  intro h
  have hl := congrArg String.length h
  rw [serializeCalDate, String.length_append, String.length_append,
    String.length_append, String.length_append,
    show String.length "-" = 1 from rfl, show String.length "" = 0 from rfl] at hl
  omega

/-- C4: the claim states the contract the spec documents — the scanner never
surfaces a malformed date, clamps confidence into [0,1] regardless of what
the service returns, and treats any deviation of the reply from the expected
structure as scan failure — but the code validates nothing about the parsed
reply.  Evaluated at the failing input, the service reply `{"expiryDate": "",
"documentType": "other", "confidence": 0.9}` — syntactically valid JSON, so
nothing throws — reaches the success path and the scanner returns
`expiryDate` as the empty string verbatim, which is neither absent nor a
valid parseable calendar date: the `if (result.expiryDate)` truthiness check
skips normalization for the one falsy string.  (Beyond this typed model, an
ill-typed field misbehaves too: `{"confidence": "high"}` makes
`Math.max(0, Math.min(1, "high"))` evaluate to NaN, outside [0,1], and a
falsy non-string such as `{"expiryDate": 0}` is likewise returned verbatim.) -/
theorem scanner_malformed_reply_bug :
    (scanDocumentForExpiry (.ok []) "image/jpeg" true
        (.success { expiryDate := some "", documentType := some "other",
                    confidence := some (mkRat 9 10),
                    documentNumber := none })).calledService = true ∧
    (scanDocumentForExpiry (.ok []) "image/jpeg" true
        (.success { expiryDate := some "", documentType := some "other",
                    confidence := some (mkRat 9 10),
                    documentNumber := none })).result.expiryDate = some "" ∧
    ¬ ((scanDocumentForExpiry (.ok []) "image/jpeg" true
          (.success { expiryDate := some "", documentType := some "other",
                      confidence := some (mkRat 9 10), documentNumber := none })).result.expiryDate
        = none ∨
      ∃ cd : CalDate, calDateValid cd = true ∧
        (scanDocumentForExpiry (.ok []) "image/jpeg" true
          (.success { expiryDate := some "", documentType := some "other",
                      confidence := some (mkRat 9 10), documentNumber := none })).result.expiryDate
          = some (serializeCalDate cd)) := by
  have hres : (scanDocumentForExpiry (.ok []) "image/jpeg" true
      (.success { expiryDate := some "", documentType := some "other",
                  confidence := some (mkRat 9 10), documentNumber := none })).result.expiryDate
      = some "" := by decide
  refine ⟨by decide, hres, ?_⟩
  rw [hres]
  rintro (h | ⟨cd, _, hcd⟩)
  · exact Option.noConfusion h
  · exact serializeCalDate_ne_empty cd (Option.some.inj hcd).symm

/-! ## C1: cascade deletion of reminders -/

/-- C1: evaluated at a store holding one owned document and one reminder
referencing it, `MemStorage.deleteDocument` returns true and removes every
reminder whose `documentId` matches, but `PostgresStorage.deleteDocument`
returns true while leaving the referencing reminder row in place — the SQL
implementation issues a single `delete` on `documents` and the schema
declares no `ON DELETE CASCADE`, contradicting the cascade contract that the
interface documents and the in-memory implementation honors. -/
theorem deleteDocument_cascade_bug :
    ((memWithDocAndReminder.deleteDocument 1 "alice").2 = true ∧
      (memWithDocAndReminder.deleteDocument 1 "alice").1.reminders.filter
        (fun r => r.documentId == 1) = []) ∧
    ((pgWithDocAndReminder.deleteDocument 1 "alice").2 = true ∧
      sampleReminder ∈ (pgWithDocAndReminder.deleteDocument 1 "alice").1.reminders ∧
      sampleReminder.documentId = 1) := by
  decide

/-! ## C9: immutability of id, userId, uploadedAt -/

/-- An update object that overwrites the owning user. -/
def userIdOverwrite : DocumentUpdate := { userId := some "mallory" }

/-- C9 counterexample: `updateDocument` spreads arbitrary update fields over
the stored document (`{ ...doc, ...updates }`), so a partial update that
itself contains `userId` changes it: the claim fails for "any partial
update". -/
theorem updateDocument_userId_overwrite_counterexample :
    (memWithDocAndReminder.updateDocument 1 "alice" userIdOverwrite).2.map
        (fun d => d.userId) = some "mallory" ∧
    sampleDoc ∈ memWithDocAndReminder.documents ∧
    sampleDoc.id = 1 ∧ sampleDoc.userId = "alice" ∧
    ("mallory" : String) ≠ "alice" := by
  decide

/-- C9 amended: in both storage implementations, `updateDocument` preserves
the `id`, `userId`, and `uploadedAt` of every stored document whenever the
partial update does not itself contain one of those three fields — which
holds for every update the application issues (it only ever sets
`expiryDate`). -/
theorem updateDocument_preserves_immutable_fields
    (s : MemStorage) (db : PgDb) (idq : Nat) (uid : String) (u : DocumentUpdate)
    (hid : u.id = none) (huser : u.userId = none) (hup : u.uploadedAt = none) :
    (∀ d' ∈ (s.updateDocument idq uid u).1.documents,
      ∃ d ∈ s.documents,
        d'.id = d.id ∧ d'.userId = d.userId ∧ d'.uploadedAt = d.uploadedAt) ∧
    (∀ d' ∈ (db.updateDocument idq uid u).1.documents,
      ∃ d ∈ db.documents,
        d'.id = d.id ∧ d'.userId = d.userId ∧ d'.uploadedAt = d.uploadedAt) := by
  have happ : ∀ d : Document, (applyUpdate d u).id = d.id ∧
      (applyUpdate d u).userId = d.userId ∧ (applyUpdate d u).uploadedAt = d.uploadedAt := by
    intro d
    simp [applyUpdate, hid, huser, hup]
  constructor
  · intro d' hd'
    unfold MemStorage.updateDocument at hd'
    split at hd'
    · exact ⟨d', hd', rfl, rfl, rfl⟩
    · next d hfind =>
      split at hd'
      · simp only at hd'
        rcases List.mem_map.mp hd' with ⟨x, hx, hfx⟩
        by_cases hxid : (x.id == idq) = true
        · rw [if_pos hxid] at hfx
          exact ⟨d, List.mem_of_find?_eq_some hfind, hfx ▸ happ d⟩
        · rw [if_neg hxid] at hfx
          exact ⟨x, hx, hfx ▸ ⟨rfl, rfl, rfl⟩⟩
      · exact ⟨d', hd', rfl, rfl, rfl⟩
  · intro d' hd'
    unfold PgDb.updateDocument at hd'
    simp only at hd'
    rcases List.mem_map.mp hd' with ⟨x, hx, hfx⟩
    by_cases hxid : (x.id == idq && x.userId == uid) = true
    · rw [if_pos hxid] at hfx
      exact ⟨x, hx, hfx ▸ happ x⟩
    · rw [if_neg hxid] at hfx
      exact ⟨x, hx, hfx ▸ ⟨rfl, rfl, rfl⟩⟩

/-- The update the upload handler actually issues after a confident scan. -/
def expiryOnlyUpdate : DocumentUpdate :=
  { expiryDate := some (some (.valid 1772323200000)) }

/-- Closed instance of C9 (amended), discharging each hypothesis at a
concrete input. -/
theorem updateDocument_preserves_immutable_fields_witness :
    (∀ d' ∈ (memWithDocAndReminder.updateDocument 1 "alice" expiryOnlyUpdate).1.documents,
      ∃ d ∈ memWithDocAndReminder.documents,
        d'.id = d.id ∧ d'.userId = d.userId ∧ d'.uploadedAt = d.uploadedAt) ∧
    (∀ d' ∈ (pgWithDocAndReminder.updateDocument 1 "alice" expiryOnlyUpdate).1.documents,
      ∃ d ∈ pgWithDocAndReminder.documents,
        d'.id = d.id ∧ d'.userId = d.userId ∧ d'.uploadedAt = d.uploadedAt) :=
  updateDocument_preserves_immutable_fields memWithDocAndReminder pgWithDocAndReminder
    1 "alice" expiryOnlyUpdate rfl rfl rfl

/-! ## C10: upcoming-reminder window -/

/-- C10: in both storage implementations, `getUpcomingReminders(userId, days)`
returns exactly the stored reminders of that user that are active
(`isActive` strictly true — a dismissed or null flag is never returned) and
whose `reminderDate` lies between now and now plus `days` days, both bounds
inclusive; past reminders and reminders beyond the window are never
returned. -/
theorem getUpcomingReminders_window
    (s : MemStorage) (db : PgDb) (uid : String) (days now : Int)
    (hdays : 0 ≤ days) :
    (∀ r : Reminder, r ∈ s.getUpcomingReminders uid days now ↔
      (r ∈ s.reminders ∧ r.userId = uid ∧ r.isActive = some true ∧
        now ≤ r.reminderDate ∧ r.reminderDate ≤ now + days * dayMs)) ∧
    (∀ r : Reminder, r ∈ db.getUpcomingReminders uid days now ↔
      (r ∈ db.reminders ∧ r.userId = uid ∧ r.isActive = some true ∧
        now ≤ r.reminderDate ∧ r.reminderDate ≤ now + days * dayMs)) := by
  constructor
  · intro r
    simp [MemStorage.getUpcomingReminders, List.mem_filter, and_assoc]
    tauto
  · intro r
    simp [PgDb.getUpcomingReminders, List.mem_filter, and_assoc]

/-- A reminder inside the 30-day window. -/
def upcomingReminder : Reminder :=
  { id := 6, userId := "alice", documentId := 1, reminderDate := 5 * 86400000,
    message := "passport_john.jpg expires in 1 week", isActive := some true,
    createdAt := 0 }

/-- A dismissed reminder inside the window. -/
def dismissedReminder : Reminder :=
  { id := 7, userId := "alice", documentId := 1, reminderDate := 5 * 86400000,
    message := "passport_john.jpg expires in 1 month", isActive := some false,
    createdAt := 0 }

/-- A store holding one upcoming and one dismissed reminder. -/
def memUpcoming : MemStorage :=
  { documents := [sampleDoc], reminders := [upcomingReminder, dismissedReminder],
    nextId := 10 }

/-- Closed instance of C10, discharging each hypothesis at a concrete input:
the active in-window reminder is returned and the dismissed one is not. -/
theorem getUpcomingReminders_window_witness :
    upcomingReminder ∈ memUpcoming.getUpcomingReminders "alice" 30 0 ∧
    dismissedReminder ∉ memUpcoming.getUpcomingReminders "alice" 30 0 := by
  constructor
  · exact ((getUpcomingReminders_window memUpcoming pgWithDocAndReminder "alice" 30 0
      (by decide)).1 upcomingReminder).mpr (by decide)
  · intro hmem
    have h := ((getUpcomingReminders_window memUpcoming pgWithDocAndReminder "alice" 30 0
      (by decide)).1 dismissedReminder).mp hmem
    exact absurd h.2.2.1 (by decide)

/-! ## C3, C8: the reminder scheduler -/

/-- The reminders the scheduler loop persists, starting from fresh id `n`:
one per offset whose trigger date is strictly in the future. -/
def loopRems (d : Document) (uid : String) (now e : Int) :
    List (Int × String) → Nat → List Reminder
  | [], _ => []
  | od :: rest, n =>
    if now < e - od.1 * dayMs then
      { id := n, userId := uid, documentId := d.id,
        reminderDate := e - od.1 * dayMs,
        message := d.originalName ++ od.2, isActive := some true,
        createdAt := now } :: loopRems d uid now e rest (n + 1)
    else loopRems d uid now e rest n

/-- Effect of the scheduler loop on the store: it appends `loopRems`, bumps
the fresh-id counter by the number of appended reminders, and leaves the
documents untouched. -/
lemma reminderLoop_spec (d : Document) (uid : String) (now e : Int) :
    ∀ (l : List (Int × String)) (s : MemStorage),
      (reminderLoop d uid now e l s).reminders =
          s.reminders ++ loopRems d uid now e l s.nextId ∧
      (reminderLoop d uid now e l s).nextId =
          s.nextId + (loopRems d uid now e l s.nextId).length ∧
      (reminderLoop d uid now e l s).documents = s.documents := by
  intro l
  induction l with
  | nil => intro s; simp [reminderLoop, loopRems]
  | cons od rest ih =>
    intro s
    by_cases h : now < e - od.1 * dayMs
    · have hgoal : reminderLoop d uid now e (od :: rest) s =
          reminderLoop d uid now e rest
            { s with
              reminders := s.reminders ++
                [{ id := s.nextId, userId := uid, documentId := d.id,
                   reminderDate := e - od.1 * dayMs,
                   message := d.originalName ++ od.2, isActive := some true,
                   createdAt := now }],
              nextId := s.nextId + 1 } := by
        simp [reminderLoop, h, MemStorage.createReminder]
      obtain ⟨h1, h2, h3⟩ := ih
        { s with
          reminders := s.reminders ++
            [{ id := s.nextId, userId := uid, documentId := d.id,
               reminderDate := e - od.1 * dayMs,
               message := d.originalName ++ od.2, isActive := some true,
               createdAt := now }],
          nextId := s.nextId + 1 }
      refine ⟨?_, ?_, ?_⟩
      · rw [hgoal, h1]
        simp [loopRems, h, List.append_assoc]
      · rw [hgoal, h2]
        simp [loopRems, h]
        omega
      · rw [hgoal, h3]
    · have hgoal : reminderLoop d uid now e (od :: rest) s =
          reminderLoop d uid now e rest s := by
        simp [reminderLoop, h]
      obtain ⟨h1, h2, h3⟩ := ih s
      rw [hgoal]
      refine ⟨?_, ?_, h3⟩
      · rw [h1, loopRems, if_neg h]
      · rw [h2, loopRems, if_neg h]

/-- Projection of the appended reminders to their observable fields: exactly
one per qualifying offset, in table order. -/
lemma loopRems_proj (d : Document) (uid : String) (now e : Int) :
    ∀ (l : List (Int × String)) (n : Nat),
      (loopRems d uid now e l n).map
          (fun r => (r.documentId, r.reminderDate, r.message, r.isActive)) =
        (l.filter (fun od => decide (now < e - od.1 * dayMs))).map
          (fun od => (d.id, e - od.1 * dayMs, d.originalName ++ od.2,
            some true)) := by
  intro l
  induction l with
  | nil => intro n; rfl
  | cons od rest ih =>
    intro n
    by_cases h : now < e - od.1 * dayMs
    · simp [loopRems, h, List.filter_cons, ih]
    · simp [loopRems, h, List.filter_cons, ih]

/-- The number of appended reminders equals the number of qualifying
offsets. -/
lemma loopRems_length (d : Document) (uid : String) (now e : Int)
    (l : List (Int × String)) (n : Nat) :
    (loopRems d uid now e l n).length =
      (l.filter (fun od => decide (now < e - od.1 * dayMs))).length := by
  have hproj := congrArg List.length (loopRems_proj d uid now e l n)
  simpa using hproj

/-- The appended reminders carry the consecutive fresh ids starting at `n`. -/
lemma loopRems_ids (d : Document) (uid : String) (now e : Int) :
    ∀ (l : List (Int × String)) (n : Nat),
      (loopRems d uid now e l n).map (fun r => r.id) =
        List.range' n (l.filter (fun od => decide (now < e - od.1 * dayMs))).length := by
  intro l
  induction l with
  | nil => intro n; rfl
  | cons od rest ih =>
    intro n
    by_cases h : now < e - od.1 * dayMs
    · simp [loopRems, h, List.filter_cons, ih, List.range'_succ]
    · simp [loopRems, h, List.filter_cons, ih]

/-- Every appended reminder references the scheduled document. -/
lemma loopRems_docId (d : Document) (uid : String) (now e : Int) :
    ∀ (l : List (Int × String)) (n : Nat),
      ∀ r ∈ loopRems d uid now e l n, r.documentId = d.id := by
  intro l
  induction l with
  | nil => intro n r hr; exact absurd hr (List.not_mem_nil r)
  | cons od rest ih =>
    intro n r hr
    by_cases h : now < e - od.1 * dayMs
    · rw [loopRems, if_pos h] at hr
      rcases List.mem_cons.mp hr with hr0 | hrr
      · rw [hr0]
      · exact ih (n + 1) r hrr
    · rw [loopRems, if_neg h] at hr
      exact ih n r hr

/-- Every appended reminder's message is the original filename followed by a
canned suffix from the offset table. -/
lemma loopRems_msg (d : Document) (uid : String) (now e : Int) :
    ∀ (l : List (Int × String)) (n : Nat),
      ∀ r ∈ loopRems d uid now e l n,
        ∃ od ∈ l, r.message = d.originalName ++ od.2 := by
  intro l
  induction l with
  | nil => intro n r hr; exact absurd hr (List.not_mem_nil r)
  | cons od rest ih =>
    intro n r hr
    by_cases h : now < e - od.1 * dayMs
    · rw [loopRems, if_pos h] at hr
      rcases List.mem_cons.mp hr with hr0 | hrr
      · exact ⟨od, List.mem_cons_self od rest, by rw [hr0]⟩
      · obtain ⟨od', hod', hmsg⟩ := ih (n + 1) r hrr
        exact ⟨od', List.mem_cons_of_mem od hod', hmsg⟩
    · rw [loopRems, if_neg h] at hr
      obtain ⟨od', hod', hmsg⟩ := ih n r hr
      exact ⟨od', List.mem_cons_of_mem od hod', hmsg⟩

/-- A list is a prefix of itself followed by anything. -/
lemma isPrefixCh_append_self : ∀ (p b : List Char), isPrefixCh p (p ++ b) = true := by
  intro p
  induction p with
  | nil => intro b; rfl
  | cons c p' ih => intro b; simp [isPrefixCh, ih]

/-- A list contains itself followed by anything. -/
lemma containsCh_append_self : ∀ (p b : List Char), containsCh p (p ++ b) = true := by
  intro p b
  cases p with
  | nil =>
    cases b with
    | nil => rfl
    | cons x r => rfl
  | cons c p' =>
    simp [containsCh, isPrefixCh, isPrefixCh_append_self]

/-- A string contains its own prefix: `(a ++ b).includes(a)`. -/
lemma strContains_append_left (a b : String) : strContains (a ++ b) a = true := by
  unfold strContains
  rw [show (a ++ b).toList = a.toList ++ b.toList from String.data_append a b]
  exact containsCh_append_self _ _

/-- C3: for a document whose expiry date is the instant `e`, scheduled at
time `now`, the scheduler appends to the store exactly one reminder for each
offset `o ∈ {90, 30, 7}` days such that `e` minus `o` days is strictly later
than `now` — and none for any offset at or before `now` — each carrying
`isActive` true, the document's id, reminder date `e` minus `o` days, and a
canned message referencing the document's original filename; between 0 and 3
reminders are appended per call. -/
theorem scheduler_lead_time_law (d : Document) (uid : String) (now e : Int)
    (s : MemStorage) (hE : d.expiryDate = some (.valid e)) :
    ∃ added : List Reminder,
      (createExpiryReminders d uid now s).reminders = s.reminders ++ added ∧
      added.map (fun r => (r.documentId, r.reminderDate, r.message, r.isActive)) =
        (reminderOffsets.filter (fun od => decide (now < e - od.1 * dayMs))).map
          (fun od => (d.id, e - od.1 * dayMs, d.originalName ++ od.2,
            some true)) ∧
      added.length ≤ 3 ∧
      ∀ r ∈ added, strContains r.message d.originalName = true := by
  refine ⟨loopRems d uid now e reminderOffsets s.nextId, ?_, ?_, ?_, ?_⟩
  · have hunfold : createExpiryReminders d uid now s =
        reminderLoop d uid now e reminderOffsets s := by
      rw [createExpiryReminders, hE]
    rw [hunfold]
    exact (reminderLoop_spec d uid now e reminderOffsets s).1
  · exact loopRems_proj d uid now e reminderOffsets s.nextId
  · rw [loopRems_length]
    exact le_trans (List.length_filter_le _ _) (by rfl)
  · intro r hr
    obtain ⟨od, _, hmsg⟩ := loopRems_msg d uid now e reminderOffsets s.nextId r hr
    rw [hmsg]
    exact strContains_append_left d.originalName od.2

/-- A document expiring 50 days after the epoch. -/
def expiringDoc : Document :=
  { id := 2, userId := "alice", filename := "f2", originalName := "brp_card.png",
    mimeType := "image/png", size := 50, category := "Identity Documents",
    tags := some [], metadata := none,
    expiryDate := some (.valid (50 * 86400000)), isEncrypted := some true,
    uploadedAt := 0 }

/-- A store holding only `expiringDoc` and no reminders. -/
def memExpiring : MemStorage :=
  { documents := [expiringDoc], reminders := [], nextId := 0 }

/-- Closed instance of C3, discharging each hypothesis at a concrete input:
50 days before expiry, exactly the 30-day and 7-day reminders are created. -/
theorem scheduler_lead_time_law_witness :
    ∃ added : List Reminder,
      (createExpiryReminders expiringDoc "alice" 0 memExpiring).reminders =
          memExpiring.reminders ++ added ∧
      added.map (fun r => (r.documentId, r.reminderDate, r.message, r.isActive)) =
        (reminderOffsets.filter
            (fun od => decide ((0 : Int) < 50 * 86400000 - od.1 * dayMs))).map
          (fun od => (expiringDoc.id, 50 * 86400000 - od.1 * dayMs,
            expiringDoc.originalName ++ od.2, some true)) ∧
      added.length ≤ 3 ∧
      ∀ r ∈ added, strContains r.message expiringDoc.originalName = true :=
  scheduler_lead_time_law expiringDoc "alice" 0 (50 * 86400000) memExpiring rfl

/-- The stored reminders referencing a given document id (the reminder query
shape used by the cascade and idempotence properties). -/
def remindersFor (s : MemStorage) (docId : Nat) : List Reminder :=
  s.reminders.filter (fun r => r.documentId == docId)

/-- C8: reminder scheduling is not idempotent.  For a document whose expiry
date yields at least one future offset, over a store with no reminders for
that document yet, running the scheduler once creates its reminders, and
running it a second time on the same document state creates fresh rows again
— with pairwise distinct fresh identifiers and no scheduler-side
deduplication — so the store then holds twice the reminders of a single
call. -/
theorem scheduler_not_idempotent (d : Document) (uid : String) (now e : Int)
    (s : MemStorage) (hE : d.expiryDate = some (.valid e))
    (hfut : 1 ≤ (reminderOffsets.filter
      (fun od => decide (now < e - od.1 * dayMs))).length)
    (hclean : ∀ r ∈ s.reminders, r.documentId ≠ d.id) :
    1 ≤ (remindersFor (createExpiryReminders d uid now s) d.id).length ∧
    (remindersFor (createExpiryReminders d uid now
        (createExpiryReminders d uid now s)) d.id).length =
      2 * (remindersFor (createExpiryReminders d uid now s) d.id).length ∧
    (createExpiryReminders d uid now s).reminders.length <
      (createExpiryReminders d uid now
        (createExpiryReminders d uid now s)).reminders.length ∧
    ((remindersFor (createExpiryReminders d uid now
        (createExpiryReminders d uid now s)) d.id).map
      (fun r => r.id)).Nodup := by
  have hunfold : ∀ t : MemStorage, createExpiryReminders d uid now t =
      reminderLoop d uid now e reminderOffsets t := by
    intro t
    rw [createExpiryReminders, hE]
  set s1 := createExpiryReminders d uid now s with hs1def
  set s2 := createExpiryReminders d uid now s1 with hs2def
  obtain ⟨ha1, ha2, _⟩ := reminderLoop_spec d uid now e reminderOffsets s
  obtain ⟨hb1, hb2, _⟩ := reminderLoop_spec d uid now e reminderOffsets s1
  have hs1rem : s1.reminders =
      s.reminders ++ loopRems d uid now e reminderOffsets s.nextId := by
    rw [hs1def, hunfold]
    exact ha1
  have hs1next : s1.nextId = s.nextId +
      (reminderOffsets.filter (fun od => decide (now < e - od.1 * dayMs))).length := by
    rw [hs1def, hunfold, ha2, loopRems_length]
  have hs2rem : s2.reminders =
      s1.reminders ++ loopRems d uid now e reminderOffsets s1.nextId := by
    rw [hs2def, hunfold]
    exact hb1
  have hfil0 : s.reminders.filter (fun r => r.documentId == d.id) = [] :=
    List.filter_eq_nil_iff.mpr (fun r hr => by simpa using hclean r hr)
  have hfilL : ∀ n : Nat,
      (loopRems d uid now e reminderOffsets n).filter
        (fun r => r.documentId == d.id) = loopRems d uid now e reminderOffsets n :=
    fun n => List.filter_eq_self.mpr
      (fun r hr => by simpa using loopRems_docId d uid now e reminderOffsets n r hr)
  have hr1 : remindersFor s1 d.id = loopRems d uid now e reminderOffsets s.nextId := by
    rw [remindersFor, hs1rem, List.filter_append, hfil0, hfilL, List.nil_append]
  have hr2 : remindersFor s2 d.id =
      loopRems d uid now e reminderOffsets s.nextId ++
        loopRems d uid now e reminderOffsets s1.nextId := by
    have hr1' : s1.reminders.filter (fun r => r.documentId == d.id) =
        loopRems d uid now e reminderOffsets s.nextId := hr1
    rw [remindersFor, hs2rem, List.filter_append, hr1', hfilL]
  refine ⟨?_, ?_, ?_, ?_⟩
  · rw [hr1, loopRems_length]
    exact hfut
  · rw [hr1, hr2, List.length_append, loopRems_length, loopRems_length]
    omega
  · rw [hs2rem, List.length_append, loopRems_length]
    omega
  · rw [hr2, List.map_append, loopRems_ids, loopRems_ids, hs1next]
    rw [List.nodup_append]
    refine ⟨List.nodup_range' _ _, List.nodup_range' _ _, ?_⟩
    intro a ha1 ha2
    rw [List.mem_range'_1] at ha1 ha2
    omega

/-- Closed instance of C8, discharging each hypothesis at a concrete input:
scheduled twice 50 days before expiry, the document ends up with four
reminders — two per call — all with distinct ids. -/
theorem scheduler_not_idempotent_witness :
    1 ≤ (remindersFor (createExpiryReminders expiringDoc "alice" 0 memExpiring)
      expiringDoc.id).length ∧
    (remindersFor (createExpiryReminders expiringDoc "alice" 0
        (createExpiryReminders expiringDoc "alice" 0 memExpiring))
      expiringDoc.id).length =
      2 * (remindersFor (createExpiryReminders expiringDoc "alice" 0 memExpiring)
        expiringDoc.id).length ∧
    (createExpiryReminders expiringDoc "alice" 0 memExpiring).reminders.length <
      (createExpiryReminders expiringDoc "alice" 0
        (createExpiryReminders expiringDoc "alice" 0 memExpiring)).reminders.length ∧
    ((remindersFor (createExpiryReminders expiringDoc "alice" 0
        (createExpiryReminders expiringDoc "alice" 0 memExpiring))
      expiringDoc.id).map (fun r => r.id)).Nodup :=
  scheduler_not_idempotent expiringDoc "alice" 0 (50 * 86400000) memExpiring rfl
    (by decide) (by decide)
